import Mathlib

/-!
Verification of the gs_chat query-safety and template-rendering pipeline.

The definitions below are a shallow embedding of
`gs_chat/controllers/layers/sql_validator.py` and
`gs_chat/controllers/layers/template_renderer.py` (plus the variant
`render_template` in `gs_chat/controllers/chat.py`).  Python strings are
modelled as `List Char` internally and `String` at the interface; the
permission oracle (`frappe.has_permission`) and the row store
(`frappe.db.sql`) are explicit function parameters; Python exceptions are
modelled with `Except String`.  The regex passes of the source are modelled
by character-level scanners that reproduce the behaviour of the concrete
patterns appearing in the source (all of which are literal words, literal
placeholders wrapped in optional whitespace, or the fixed loop-block
pattern), including Python `re.sub`'s processing of escape sequences in the
replacement string.
-/

/-- ASCII whitespace as matched by Python `\s` and `str.strip` on the
inputs considered here. -/
def isWsChar (c : Char) : Bool :=
  c == ' ' || c == '\t' || c == '\n' || c == '\r' || c == '\x0b' || c == '\x0c'

/-- Word character, as in the regex class `\w` (ASCII letters, digits, underscore). -/
def isWordChar (c : Char) : Bool :=
  c.isAlphanum || c == '_'

/-- The backtick character (used unescaped in the source regexes for table names). -/
def backtickChar : Char := Char.ofNat 96

/-- The single-quote character. -/
def squoteChar : Char := Char.ofNat 39

/-- The double-quote character. -/
def dquoteChar : Char := Char.ofNat 34

/-- The backslash character. -/
def backslashChar : Char := Char.ofNat 92

/-- Left brace as a character. -/
def lbraceChar : Char := Char.ofNat 123

/-- Right brace as a character. -/
def rbraceChar : Char := Char.ofNat 125

/-- Python `str.upper` on the ASCII fragment used by the validator. -/
def pyUpperL (s : List Char) : List Char := s.map Char.toUpper

/-- Python `str.lower` on the ASCII fragment used by the validator. -/
def pyLowerL (s : List Char) : List Char := s.map Char.toLower

/-- Python `str.strip()`: remove leading and trailing whitespace. -/
def pyStripL (s : List Char) : List Char :=
  ((s.dropWhile isWsChar).reverse.dropWhile isWsChar).reverse

/-- Match a literal character sequence at the head of the input, returning
the remainder on success. -/
def matchChars : List Char → List Char → Option (List Char)
  | [], s => some s
  | _ :: _, [] => none
  | c :: cs, d :: ds => if d == c then matchChars cs ds else none

/-- Match a literal character sequence case-insensitively (the pattern is
given in upper case, as in the source's `re.IGNORECASE` searches). -/
def matchCharsCI : List Char → List Char → Option (List Char)
  | [], s => some s
  | _ :: _, [] => none
  | c :: cs, d :: ds => if d.toUpper == c then matchCharsCI cs ds else none

/-- Substring containment: `containsSub pat s` is true iff `pat` occurs
contiguously in `s` (Python `pat in s`). -/
def containsSub (pat : List Char) : List Char → Bool
  | [] => (matchChars pat []).isSome
  | s@(_ :: cs) => (matchChars pat s).isSome || containsSub pat cs

/-- One alternative of the keyword denylist: a sequence of literal words
separated by `\s+` in the source regex.  Matches the words at the head of
the input and returns the remainder. -/
def matchWordsAt : List String → List Char → Option (List Char)
  | [], s => some s
  | [w], s => matchChars w.data s
  | w :: ws, s =>
    match matchChars w.data s with
    | none => none
    | some r =>
      match r with
      | [] => none
      | c :: cs => if isWsChar c then matchWordsAt ws (cs.dropWhile isWsChar) else none

/-- After a keyword alternative, the regex `\b` requires end of input or a
non-word character (every keyword ends in a word character). -/
def boundaryAfter : List Char → Bool
  | [] => true
  | c :: _ => !isWordChar c

/-- Does some alternative match at this position, with a word boundary after it? -/
def matchAltHere (alts : List (List String)) (s : List Char) : Bool :=
  alts.any fun alt =>
    match matchWordsAt alt s with
    | some r => boundaryAfter r
    | none => false

/-- Scan the whole input for a keyword alternative preceded by a word
boundary (`prev` is the character before the current position; every
keyword starts with a word character, so `\b` there means `prev` is absent
or a non-word character). -/
def searchKwAux (alts : List (List String)) : Option Char → List Char → Bool
  | prev, [] =>
    (match prev with | none => true | some c => !isWordChar c) && matchAltHere alts []
  | prev, s@(c :: cs) =>
    ((match prev with | none => true | some p => !isWordChar p) && matchAltHere alts s)
    || searchKwAux alts (some c) cs

/-- Search for a whole-word keyword alternative anywhere in the input:
the model of `re.search` for the denylist patterns. -/
def searchKw (alts : List (List String)) (s : List Char) : Bool :=
  searchKwAux alts none s

/-- Alternatives of the first forbidden pattern
`\b(DELETE|DROP|TRUNCATE|ALTER|UPDATE|GRANT|REVOKE|CREATE\s+DATABASE|DROP\s+DATABASE)\b`. -/
def kwPattern1 : List (List String) :=
  [["DELETE"], ["DROP"], ["TRUNCATE"], ["ALTER"], ["UPDATE"], ["GRANT"], ["REVOKE"],
   ["CREATE", "DATABASE"], ["DROP", "DATABASE"]]

/-- Alternatives of the second forbidden pattern `\b(EXEC|EXECUTE|XP_|SP_)\b`.
Note that the literal alternatives `XP_` and `SP_` end in an underscore,
which is a word character, so the trailing `\b` demands a non-word
character (or end of input) immediately after the underscore. -/
def kwPattern2 : List (List String) :=
  [["EXEC"], ["EXECUTE"], ["XP_"], ["SP_"]]

/-- Source text of the first forbidden regex (used in the error message). -/
def pat1Src : String :=
  "\\b(DELETE|DROP|TRUNCATE|ALTER|UPDATE|GRANT|REVOKE|CREATE\\s+DATABASE|DROP\\s+DATABASE)\\b"

/-- Source text of the second forbidden regex (used in the error message). -/
def pat2Src : String := "\\b(EXEC|EXECUTE|XP_|SP_)\\b"

/-- Source text of the comment-marker regex (used in the error message). -/
def pat3Src : String := "(--|#|\\/\\*)"

/-- The comment-marker pattern `(--|#|/*)`: a plain substring search. -/
def commentMarker (s : List Char) : Bool :=
  containsSub "--".data s || containsSub "#".data s || containsSub "/*".data s

/-- `SQLValidator.FORBIDDEN_KEYWORDS` loop: return the message of the first
pattern that matches the upper-cased, stripped query, if any. -/
def firstForbidden (qU : List Char) : Option String :=
  if searchKw kwPattern1 qU then some ("Forbidden operation detected: " ++ pat1Src)
  else if searchKw kwPattern2 qU then some ("Forbidden operation detected: " ++ pat2Src)
  else if commentMarker qU then some ("Forbidden operation detected: " ++ pat3Src)
  else none

/-- `SQLValidator.ALLOWED_OPERATIONS` (keys of the dict). -/
def allowedOperations : List String := ["SELECT", "INSERT", "SHOW", "DESCRIBE"]

/-- `SQLValidator.ALLOWED_INSERT_DOCTYPES`. -/
def allowedInsertDoctypes : List String :=
  ["Lead", "Opportunity", "Customer", "Supplier", "Item", "Task", "Event", "Note"]

/-- The system-reserved field names of `SQLValidator._validate_insert`. -/
def forbiddenFields : List String :=
  ["docstatus", "idx", "lft", "rgt", "_user_tags", "_liked_by"]

/-- `query.upper().strip()` as computed at the top of `validate_query`. -/
def queryUpperStripped (q : String) : List Char :=
  pyStripL (pyUpperL q.data)

/-- `SQLValidator._get_operation`: first whitespace-separated token, or the
empty string when there is none. -/
def getOperationL (q : List Char) : List Char :=
  (q.dropWhile isWsChar).takeWhile (fun c => !isWsChar c)

/-- The operation of a query, as classified by `validate_query`. -/
def queryOperation (q : String) : String :=
  String.mk (getOperationL (queryUpperStripped q))

/-- `SQLValidator._table_to_doctype`: strip the literal (case-sensitive)
prefix `tab`, or `none` for tables outside the naming convention. -/
def table_to_doctype (t : List Char) : Option (List Char) :=
  match matchChars "tab".data t with
  | some rest => some rest
  | none => none

/-- One match of `FROM\s+`?(\w+)`?` (or the JOIN variant) at the current
position: the keyword (case-insensitively), at least one whitespace
character, an optional backtick, a non-empty word-character run (the
captured table name), and an optional closing backtick.  Returns the
capture and the remainder after the whole match. -/
def matchTableAt (kw : List Char) (s : List Char) : Option (List Char × List Char) :=
  match matchCharsCI kw s with
  | none => none
  | some r =>
    match r with
    | [] => none
    | c :: cs =>
      if isWsChar c then
        let r2 := cs.dropWhile isWsChar
        let r3 := match r2 with
          | t :: ts => if t == backtickChar then ts else r2
          | [] => r2
        let name := r3.takeWhile isWordChar
        if name.isEmpty then none
        else
          let rest := r3.drop name.length
          let rest2 := match rest with
            | t :: ts => if t == backtickChar then ts else rest
            | [] => rest
          some (name, rest2)
      else none

/-- `re.findall` for the table patterns: scan left to right, non-overlapping. -/
def findTablesAux (kw : List Char) : Nat → List Char → List (List Char)
  | 0, _ => []
  | _ + 1, [] => []
  | fuel + 1, s@(_ :: cs) =>
    match matchTableAt kw s with
    | some (name, rest) => name :: findTablesAux kw fuel rest
    | none => findTablesAux kw fuel cs

/-- `SQLValidator._extract_tables`: captures of the FROM pattern followed by
captures of the JOIN pattern.  (The source collects them into a Python
`set`, whose iteration order is unspecified; the validation outcome only
depends on membership, which this list preserves.) -/
def extract_tables (q : List Char) : List (List Char) :=
  findTablesAux "FROM".data q.length q ++ findTablesAux "JOIN".data q.length q

/-- The per-table rejection test of `_validate_select`: the table maps to a
truthy doctype name and the session lacks read permission.  (Python's
`and` short-circuits, so the oracle is only consulted for truthy names.) -/
def selectTableViolation (perm : String → String → Bool) (t : List Char) : Bool :=
  match table_to_doctype t with
  | some dn => !dn.isEmpty && !perm (String.mk dn) "read"
  | none => false

/-- `SQLValidator._validate_select`. -/
def validate_select (perm : String → String → Bool) (q : String) :
    Bool × Option String :=
  match (extract_tables q.data).find? (selectTableViolation perm) with
  | some t =>
    (false, some ("No read permission for " ++ String.mk ((table_to_doctype t).getD [])))
  | none =>
    if containsSub "INTO OUTFILE".data (pyUpperL q.data) then
      (false, some "File operations not allowed")
    else (true, none)

/-- First match of `INTO\s+`?tab(\w+)`?` (case-insensitive) at this
position: returns the capture after the literal `tab`. -/
def matchInsertTargetAt (s : List Char) : Option (List Char) :=
  match matchCharsCI "INTO".data s with
  | none => none
  | some r =>
    match r with
    | [] => none
    | c :: cs =>
      if isWsChar c then
        let r2 := cs.dropWhile isWsChar
        let r3 := match r2 with
          | t :: ts => if t == backtickChar then ts else r2
          | [] => r2
        match matchCharsCI "TAB".data r3 with
        | none => none
        | some r4 =>
          let name := r4.takeWhile isWordChar
          if name.isEmpty then none else some name
      else none

/-- `re.search` for the INSERT-target pattern: first match anywhere. -/
def parseInsertDoctypeAux : Nat → List Char → Option (List Char)
  | 0, _ => none
  | _ + 1, [] => none
  | fuel + 1, s@(_ :: cs) =>
    match matchInsertTargetAt s with
    | some name => some name
    | none => parseInsertDoctypeAux fuel cs

/-- Doctype parsed from `INSERT INTO tab<Entity>`, if any. -/
def parseInsertDoctype (q : String) : Option String :=
  (parseInsertDoctypeAux q.data.length q.data).map String.mk

/-- The effective INSERT target doctype of `_validate_insert`: the `doctype`
argument when truthy, else the doctype parsed from the query text. -/
def insertTarget (q : String) (doctype : Option String) : Option String :=
  match doctype with
  | some d => if d = "" then parseInsertDoctype q else some d
  | none => parseInsertDoctype q

/-- True when `_validate_insert` would reject on the target doctype: no
target can be determined, or the target is outside the assisted-creation
allow-list. -/
def insertTargetDisallowed (q : String) (doctype : Option String) : Bool :=
  match insertTarget q doctype with
  | none => true
  | some d => !allowedInsertDoctypes.contains d

/-- `SQLValidator._validate_insert`. -/
def validate_insert (perm : String → String → Bool) (q : String)
    (doctype : Option String) : Bool × Option String :=
  match insertTarget q doctype with
  | none => (false, some "Cannot determine target doctype for INSERT")
  | some d =>
    if !allowedInsertDoctypes.contains d then
      (false, some ("Creating " ++ d ++ " records via AI is not allowed"))
    else if !perm d "create" then
      (false, some ("No create permission for " ++ d))
    else
      match forbiddenFields.find? (fun f => containsSub f.data (pyLowerL q.data)) with
      | some f => (false, some ("Cannot set system field: " ++ f))
      | none => (true, none)

/-- `SQLValidator.validate_query`: the verdict `(is_valid, error_message)`.
The permission oracle is passed explicitly in place of
`frappe.has_permission`. -/
def validate_query (perm : String → String → Bool) (query : String)
    (doctype : Option String) : Bool × Option String :=
  if query = "" then (false, some "Empty query")
  else
    match firstForbidden (queryUpperStripped query) with
    | some msg => (false, some msg)
    | none =>
      let op := queryOperation query
      if !allowedOperations.contains op then
        (false, some ("Operation " ++ String.mk [squoteChar] ++ op ++
          String.mk [squoteChar] ++ " is not allowed"))
      else if op = "SELECT" then validate_select perm query
      else if op = "INSERT" then validate_insert perm query doctype
      else (true, none)

/-- A result row of the row store (`frappe.db.sql(..., as_dict=True)`). -/
abbrev DbRow := List (String × String)

/-- The dictionary returned by `validate_and_execute_query`. -/
structure QueryOutcome where
  success : Bool
  data : Option (List DbRow) := none
  error : Option String := none

/-- `validate_and_execute_query`: validate, then execute against the row
store; a store exception (modelled by `Except.error`) is caught and turned
into a failure dictionary. -/
def validate_and_execute_query (perm : String → String → Bool)
    (db : String → Except String (List DbRow)) (query : String)
    (doctype : Option String) : QueryOutcome :=
  match validate_query perm query doctype with
  | (false, err) => { success := false, error := err }
  | (true, _) =>
    match db query with
    | .ok rows => { success := true, data := some rows }
    | .error e => { success := false, error := some ("Query execution failed: " ++ e) }

/-- A permission oracle granting everything. -/
def permAll : String → String → Bool := fun _ _ => true

/-- A permission oracle denying everything. -/
def permNone : String → String → Bool := fun _ _ => false

/-- Routing lemma: when the classified operation is `INSERT`, `validate_query`
either rejects outright (empty query or denylist hit) or delegates to
`validate_insert`. -/
theorem validate_query_insert_cases (perm : String → String → Bool) (q : String)
    (d : Option String) (hop : queryOperation q = "INSERT") :
    (validate_query perm q d).1 = false ∨
    validate_query perm q d = validate_insert perm q d := by
  unfold validate_query
  by_cases hq : q = ""
  · left; simp [hq]
  · rw [if_neg hq]
    cases hf : firstForbidden (queryUpperStripped q) with
    | some msg => left; rfl
    | none =>
      right
      simp [hop]
      intro h
      exact absurd (by decide) h

/-- C1: every query containing a denylisted keyword as a whole word is
rejected, including the spec's example with a trailing `DROP`; but an
identifier merely prefixed `SP_` (here `sp_help`) is NOT rejected, because
the regex `\b(EXEC|EXECUTE|XP_|SP_)\b` requires a word boundary immediately
after the underscore, which an identifier continuing with word characters
never has.  So `validate_query` accepts `SELECT sp_help()` for every
permission oracle, contradicting the claim. -/
theorem c1_sp_prefix_slips :
    ∀ perm : String → String → Bool,
      validate_query perm "SELECT sp_help()" none = (true, none) ∧
      (validate_query perm "SELECT * FROM tabCustomer; DROP TABLE tabCustomer;" none).1
        = false := by
  intro perm
  exact ⟨rfl, rfl⟩

/-- C2: `validate_and_execute_query` first validates; on failure it returns
a failure dictionary carrying the validation reason, independent of the row
store (the store is never consulted); on success it executes, and a store
exception is caught and returned as a failure dictionary; every input maps
to one of these structured outcomes, so no exception propagates. -/
theorem c2_guarded_execution (perm : String → String → Bool) (q : String)
    (d : Option String) :
    (∀ r, validate_query perm q d = (false, r) →
      ∀ db, validate_and_execute_query perm db q d =
        { success := false, data := none, error := r }) ∧
    (∀ db e, (validate_query perm q d).1 = true → db q = .error e →
      validate_and_execute_query perm db q d =
        { success := false, data := none, error := some ("Query execution failed: " ++ e) }) ∧
    (∀ db rows, (validate_query perm q d).1 = true → db q = .ok rows →
      validate_and_execute_query perm db q d =
        { success := true, data := some rows, error := none }) := by
  refine ⟨?_, ?_, ?_⟩
  · intro r h db
    unfold validate_and_execute_query
    rw [h]
  · intro db e h1 h2
    rcases hv : validate_query perm q d with ⟨b, r⟩
    rw [hv] at h1
    cases b with
    | false => simp at h1
    | true =>
      unfold validate_and_execute_query
      rw [hv, h2]
  · intro db rows h1 h2
    rcases hv : validate_query perm q d with ⟨b, r⟩
    rw [hv] at h1
    cases b with
    | false => simp at h1
    | true =>
      unfold validate_and_execute_query
      rw [hv, h2]

/-- Witness for C2 at concrete inputs: a denylisted query fails without the
store being consulted, a failing store is caught, a succeeding store
returns its rows. -/
theorem c2_witness :
    validate_and_execute_query permAll (fun _ => .error "boom") "DROP TABLE x" none =
      { success := false, data := none,
        error := some ("Forbidden operation detected: " ++ pat1Src) } ∧
    validate_and_execute_query permAll (fun _ => .error "boom") "SELECT 1" none =
      { success := false, data := none,
        error := some ("Query execution failed: " ++ "boom") } ∧
    validate_and_execute_query permAll (fun _ => .ok [[("a", "1")]]) "SELECT 1" none =
      { success := true, data := some [[("a", "1")]], error := none } :=
  ⟨(c2_guarded_execution permAll "DROP TABLE x" none).1 _ rfl _,
   (c2_guarded_execution permAll "SELECT 1" none).2.1 _ "boom" rfl rfl,
   (c2_guarded_execution permAll "SELECT 1" none).2.2 _ [[("a", "1")]] rfl rfl⟩

/-- C3: an INSERT whose effective target doctype (argument if truthy, else
parsed from `INSERT INTO tab<Entity>`) is missing or outside the
assisted-creation allow-list is rejected, for every permission oracle. -/
theorem c3_insert_allowlist (perm : String → String → Bool) (q : String)
    (d : Option String) (hop : queryOperation q = "INSERT")
    (htgt : insertTargetDisallowed q d = true) :
    (validate_query perm q d).1 = false := by
  rcases validate_query_insert_cases perm q d hop with h | h
  · exact h
  · rw [h]
    unfold validate_insert
    unfold insertTargetDisallowed at htgt
    cases ht : insertTarget q d with
    | none => rfl
    | some s =>
      rw [ht] at htgt
      have hmem : s ∉ allowedInsertDoctypes := by simpa using htgt
      simp [hmem]

/-- Witness for C3: `tabSalesInvoice` is outside the allow-list, so the
INSERT is rejected even with a fully-granting oracle. -/
theorem c3_witness :
    insertTargetDisallowed "INSERT INTO tabSalesInvoice (title) VALUES (1)" none = true ∧
    (validate_query permAll "INSERT INTO tabSalesInvoice (title) VALUES (1)" none).1
      = false :=
  ⟨rfl, c3_insert_allowlist permAll _ none rfl rfl⟩

/-- C7: an INSERT whose text contains (lower-cased, as a substring) any
system-reserved field name is rejected, for every permission oracle; in
particular a `docstatus` assignment never passes validation. -/
theorem c7_reserved_fields (perm : String → String → Bool) (q : String)
    (d : Option String) (hop : queryOperation q = "INSERT")
    (hf : forbiddenFields.any (fun f => containsSub f.data (pyLowerL q.data)) = true) :
    (validate_query perm q d).1 = false := by
  rcases validate_query_insert_cases perm q d hop with h | h
  · exact h
  · rw [h]
    unfold validate_insert
    cases ht : insertTarget q d with
    | none => rfl
    | some s =>
      cases hall : allowedInsertDoctypes.contains s with
      | false =>
        have hmem : s ∉ allowedInsertDoctypes := by simpa using hall
        simp [hmem]
      | true =>
        have hmem : s ∈ allowedInsertDoctypes := by simpa using hall
        cases hperm : perm s "create" with
        | false => simp [hmem, hperm]
        | true =>
          simp only [hall, hperm, Bool.not_true, Bool.false_eq_true, if_false]
          cases hfind : forbiddenFields.find?
              (fun f => containsSub f.data (pyLowerL q.data)) with
          | some f => rfl
          | none =>
            exfalso
            rw [List.any_eq_true] at hf
            obtain ⟨x, hx, hpx⟩ := hf
            exact absurd hpx (by
              have hn := List.find?_eq_none.mp hfind x hx
              simpa using hn)

/-- Witness for C7: an INSERT into an allow-listed doctype that mentions
`docstatus` is rejected even with a fully-granting oracle. -/
theorem c7_witness :
    forbiddenFields.any
      (fun f => containsSub f.data
        (pyLowerL ("INSERT INTO tabLead (docstatus) VALUES (2)").data)) = true ∧
    (validate_query permAll "INSERT INTO tabLead (docstatus) VALUES (2)" none).1
      = false :=
  ⟨rfl, c7_reserved_fields permAll _ none rfl rfl⟩

/-- C10: a SELECT that passes the denylist, has no INTO OUTFILE clause, and
whose extracted FROM/JOIN tables all lack the `tab` prefix is allowed
without the permission oracle being consulted: the verdict is `(true, none)`
for every oracle. -/
theorem c10_nontab_select (q : String)
    (hop : queryOperation q = "SELECT")
    (hforb : firstForbidden (queryUpperStripped q) = none)
    (htab : ∀ t ∈ extract_tables q.data, table_to_doctype t = none)
    (hout : containsSub "INTO OUTFILE".data (pyUpperL q.data) = false) :
    ∀ perm, validate_query perm q none = (true, none) := by
  intro perm
  unfold validate_query
  have hq : ¬ (q = "") := by
    intro h
    rw [h] at hop
    exact absurd hop (by decide)
  rw [if_neg hq, hforb]
  simp only [hop]
  have hsel : (allowedOperations.contains "SELECT") = true := by decide
  simp only [hsel, Bool.not_true, Bool.false_eq_true, if_false, if_true]
  have hfind : (extract_tables q.data).find? (selectTableViolation perm) = none := by
    rw [List.find?_eq_none]
    intro t ht
    unfold selectTableViolation
    rw [htab t ht]
    simp
  unfold validate_select
  rw [hfind, if_neg (by simp [hout])]

/-- Witness for C10: a SELECT over non-`tab` tables is allowed both under a
denying oracle and under a granting oracle. -/
theorem c10_witness :
    validate_query permNone "SELECT name FROM orders JOIN users ON id" none
      = (true, none) ∧
    validate_query permAll "SELECT name FROM orders JOIN users ON id" none
      = (true, none) :=
  ⟨c10_nontab_select "SELECT name FROM orders JOIN users ON id" rfl rfl (by decide)
     rfl permNone,
   c10_nontab_select "SELECT name FROM orders JOIN users ON id" rfl rfl (by decide)
     rfl permAll⟩

/-- Python values as they occur in the renderer's binding (`query_results`):
strings, integers, lists, and dictionaries with string keys. -/
inductive PyVal where
  | str : String → PyVal
  | int : Int → PyVal
  | list : List PyVal → PyVal
  | dict : List (String × PyVal) → PyVal

/-- The `ResultBinding`: the `query_results` dict, keys in insertion order
(keys are assumed distinct, as in a Python dict). -/
abbrev Binding := List (String × PyVal)

/-- Dictionary lookup (`query_results[key]`, guarded by `key in query_results`). -/
def blookup (b : Binding) (k : String) : Option PyVal :=
  (b.find? (fun kv => kv.1 == k)).map (fun kv => kv.2)

/-- Decimal digit character. -/
def digitChar (d : Nat) : Char :=
  match d with
  | 0 => '0' | 1 => '1' | 2 => '2' | 3 => '3' | 4 => '4'
  | 5 => '5' | 6 => '6' | 7 => '7' | 8 => '8' | _ => '9'

/-- Decimal digits of a positive number, most significant first (`fuel`
bounds the recursion depth; `fuel = n + 1` always suffices). -/
def natDigitsAux : Nat → Nat → List Char
  | 0, _ => []
  | fuel + 1, n => if n = 0 then [] else natDigitsAux fuel (n / 10) ++ [digitChar (n % 10)]

/-- Python `str` of a natural number. -/
def pyNatStr (n : Nat) : String :=
  if n = 0 then "0" else String.mk (natDigitsAux (n + 1) n)

/-- Python `str` of an integer. -/
def pyIntStr (i : Int) : String :=
  if i < 0 then "-" ++ pyNatStr i.natAbs else pyNatStr i.natAbs

/-- One character of a Python string repr, escaped relative to the chosen
quote character. -/
def pyReprEsc (qc : Char) (c : Char) : List Char :=
  if c = backslashChar then [backslashChar, backslashChar]
  else if c = qc then [backslashChar, qc]
  else if c = '\n' then [backslashChar, 'n']
  else if c = '\r' then [backslashChar, 'r']
  else if c = '\t' then [backslashChar, 't']
  else [c]

/-- Python `repr` of a string: single-quoted, unless the string contains a
single quote and no double quote. -/
def pyReprStr (s : String) : String :=
  let qc := if s.data.contains squoteChar && !s.data.contains dquoteChar
            then dquoteChar else squoteChar
  String.mk ([qc] ++ (s.data.map (pyReprEsc qc)).flatten ++ [qc])

mutual

/-- Python `str()` of a value (`repr` is used for elements of containers). -/
def pyStr : PyVal → String
  | .str s => s
  | .int n => pyIntStr n
  | .list xs => "[" ++ pyReprList xs ++ "]"
  | .dict fs => String.mk [lbraceChar] ++ pyReprDict fs ++ String.mk [rbraceChar]

/-- Python `repr()` of a value. -/
def pyRepr : PyVal → String
  | .str s => pyReprStr s
  | .int n => pyIntStr n
  | .list xs => "[" ++ pyReprList xs ++ "]"
  | .dict fs => String.mk [lbraceChar] ++ pyReprDict fs ++ String.mk [rbraceChar]

/-- Comma-separated reprs of list elements. -/
def pyReprList : List PyVal → String
  | [] => ""
  | [x] => pyRepr x
  | x :: xs => pyRepr x ++ ", " ++ pyReprList xs

/-- Comma-separated `key: value` reprs of dict entries. -/
def pyReprDict : List (String × PyVal) → String
  | [] => ""
  | [(k, v)] => pyReprStr k ++ ": " ++ pyRepr v
  | (k, v) :: fs => pyReprStr k ++ ": " ++ pyRepr v ++ ", " ++ pyReprDict fs

end

/-- Python `field in value` for a string `field`: key membership for dicts,
substring for strings, element equality for lists, and a `TypeError` for
non-iterable values. -/
def pyInStr (field : String) : PyVal → Except String Bool
  | .dict fs => .ok (fs.any (fun kv => kv.1 == field))
  | .str s => .ok (containsSub field.data s.data)
  | .list xs => .ok (xs.any (fun v => match v with | .str t => t == field | _ => false))
  | .int _ => .error "argument of type int is not iterable"

/-- Python `value[field]` for a string `field`: dict item access; a
`TypeError` for strings, lists and integers. -/
def pyIndexStr : PyVal → String → Except String PyVal
  | .dict fs, field =>
    match (fs.find? (fun kv => kv.1 == field)).map (fun kv => kv.2) with
    | some v => .ok v
    | none => .error "KeyError"
  | .str _, _ => .error "string indices must be integers"
  | .list _, _ => .error "list indices must be integers"
  | .int _, _ => .error "int is not subscriptable"

/-- Python `re.sub` replacement-template processing (`sre_parse.parse_template`):
`\\`, `\n`, `\t`, `\r`, `\a`, `\b`, `\f`, `\v` and octal `\0` are escapes,
`\1`..`\9` are group references (the source's substitution patterns have no
groups, so any group reference is an `invalid group reference` error),
a backslash before any other ASCII letter is a `bad escape` error, a
trailing backslash is an error, and a backslash before any other character
is kept verbatim. -/
def processRepl : List Char → Except String (List Char)
  | [] => .ok []
  | c :: cs =>
    if c = backslashChar then
      match cs with
      | [] => .error "bad escape (end of pattern)"
      | e :: es =>
        if e = backslashChar then (processRepl es).map (fun r => backslashChar :: r)
        else if e = 'n' then (processRepl es).map (fun r => '\n' :: r)
        else if e = 't' then (processRepl es).map (fun r => '\t' :: r)
        else if e = 'r' then (processRepl es).map (fun r => '\r' :: r)
        else if e = 'a' then (processRepl es).map (fun r => '\x07' :: r)
        else if e = 'b' then (processRepl es).map (fun r => '\x08' :: r)
        else if e = 'f' then (processRepl es).map (fun r => '\x0c' :: r)
        else if e = 'v' then (processRepl es).map (fun r => '\x0b' :: r)
        else if e = '0' then (processRepl es).map (fun r => '\x00' :: r)
        else if e.isDigit then .error "invalid group reference"
        else if e.isAlpha then .error "bad escape"
        else (processRepl es).map (fun r => backslashChar :: e :: r)
    else (processRepl cs).map (fun r => c :: r)

/-- Match `\{\{\s*INNER\s*\}\}` (with `INNER` a literal whose first and last
characters are not whitespace, as produced by the source) at the head of
the input, returning the remainder. -/
def matchPH (inner : List Char) (s : List Char) : Option (List Char) :=
  (matchChars [lbraceChar, lbraceChar] s).bind fun r1 =>
  (matchChars inner (r1.dropWhile isWsChar)).bind fun r2 =>
  matchChars [rbraceChar, rbraceChar] (r2.dropWhile isWsChar)

/-- Replace every non-overlapping occurrence of the placeholder pattern,
scanning left to right; the replacement text is not rescanned
(`re.sub` semantics).  `fuel` bounds the scan; `s.length` suffices since
every step consumes at least one character. -/
def subAllAux (inner repl : List Char) : Nat → List Char → List Char
  | 0, s => s
  | _ + 1, [] => []
  | fuel + 1, s@(c :: cs) =>
    match matchPH inner s with
    | some rest => repl ++ subAllAux inner repl fuel rest
    | none => c :: subAllAux inner repl fuel cs

/-- `re.sub(r'\{\{\s*' + inner + r'\s*\}\}', repl, s)`: process the
replacement template first (it can raise), then replace all matches. -/
def reSubPH (inner repl s : List Char) : Except String (List Char) :=
  (processRepl repl).map (fun r => subAllAux inner r s.length s)

/-- Decimal value of a digit run (the `int(index)` of the array pass). -/
def parseNatDigits (ds : List Char) : Nat :=
  ds.foldl (fun acc c => acc * 10 + (c.toNat - 48)) 0

/-- One match of the array pattern `\{\{\s*(\w+)\[(\d+)\]\.(\w+)\s*\}\}` at
the head of the input: captures `(key, index, field)` and the remainder. -/
def matchArrayAt (s : List Char) : Option ((String × Nat × String) × List Char) :=
  (matchChars [lbraceChar, lbraceChar] s).bind fun r1 =>
  let r2 := r1.dropWhile isWsChar
  let key := r2.takeWhile isWordChar
  if key.isEmpty then none else
  (matchChars ['['] (r2.drop key.length)).bind fun r3 =>
  let ds := r3.takeWhile Char.isDigit
  if ds.isEmpty then none else
  (matchChars [']', '.'] (r3.drop ds.length)).bind fun r4 =>
  let fld := r4.takeWhile isWordChar
  if fld.isEmpty then none else
  (matchChars [rbraceChar, rbraceChar] ((r4.drop fld.length).dropWhile isWsChar)).map
    fun r5 => ((String.mk key, parseNatDigits ds, String.mk fld), r5)

/-- `re.findall` of the array pattern: left-to-right, non-overlapping. -/
def findArrayAux : Nat → List Char → List (String × Nat × String)
  | 0, _ => []
  | _ + 1, [] => []
  | fuel + 1, s@(_ :: cs) =>
    match matchArrayAt s with
    | some (m, rest) => m :: findArrayAux fuel rest
    | none => findArrayAux fuel cs

/-- All array-pattern captures of a template. -/
def findArray (s : List Char) : List (String × Nat × String) :=
  findArrayAux s.length s

/-- One match of the simple pattern `\{\{\s*([^{}]+)\s*\}\}` at the head of
the input: the capture is the non-empty brace-free run between the double
braces (the source immediately strips it, so the stripped text is
returned), plus the remainder. -/
def matchSimpleAt (s : List Char) : Option (String × List Char) :=
  (matchChars [lbraceChar, lbraceChar] s).bind fun r1 =>
  let w := r1.takeWhile (fun c => !(c == lbraceChar) && !(c == rbraceChar))
  if w.isEmpty then none else
  (matchChars [rbraceChar, rbraceChar] (r1.drop w.length)).map
    fun r2 => (String.mk (pyStripL w), r2)

/-- `re.findall` of the simple pattern (captures already stripped). -/
def findSimpleAux : Nat → List Char → List String
  | 0, _ => []
  | _ + 1, [] => []
  | fuel + 1, s@(_ :: cs) =>
    match matchSimpleAt s with
    | some (ph, rest) => ph :: findSimpleAux fuel rest
    | none => findSimpleAux fuel cs

/-- All simple-pattern captures of a template, stripped. -/
def findSimple (s : List Char) : List String :=
  findSimpleAux s.length s

/-- One match of the loop-variable pattern `\{\{\s*([\w.]+)\s*\}\}` at the
head of the input: the capture and the remainder. -/
def matchVarRefAt (s : List Char) : Option (List Char × List Char) :=
  (matchChars [lbraceChar, lbraceChar] s).bind fun r1 =>
  let r2 := r1.dropWhile isWsChar
  let ref := r2.takeWhile (fun c => isWordChar c || c == '.')
  if ref.isEmpty then none else
  (matchChars [rbraceChar, rbraceChar] ((r2.drop ref.length).dropWhile isWsChar)).map
    fun r3 => (ref, r3)

/-- `re.findall` of the loop-variable pattern over a loop body. -/
def findVarRefsAux : Nat → List Char → List (List Char)
  | 0, _ => []
  | _ + 1, [] => []
  | fuel + 1, s@(_ :: cs) =>
    match matchVarRefAt s with
    | some (ref, rest) => ref :: findVarRefsAux fuel rest
    | none => findVarRefsAux fuel cs

/-- All loop-variable references of a loop body. -/
def findVarRefs (s : List Char) : List (List Char) :=
  findVarRefsAux s.length s

/-- Match `\{%\s*endfor\s*%\}` at the head of the input. -/
def matchEndforAt (s : List Char) : Option (List Char) :=
  (matchChars [lbraceChar, '%'] s).bind fun r1 =>
  (matchChars "endfor".data (r1.dropWhile isWsChar)).bind fun r2 =>
  matchChars ['%', rbraceChar] (r2.dropWhile isWsChar)

/-- The non-greedy `(.*?)\{%\s*endfor\s*%\}` of the loop pattern: scan for
the first `endfor` marker, returning the body before it and the remainder
after it. -/
def findEndfor : Nat → List Char → Option (List Char × List Char)
  | 0, _ => none
  | _ + 1, [] => none
  | fuel + 1, s@(c :: cs) =>
    match matchEndforAt s with
    | some rest => some ([], rest)
    | none => (findEndfor fuel cs).map (fun p => (c :: p.1, p.2))

/-- Match the loop header `\{%\s*for\s+(\w+)\s+in\s+(\w+)\s*%\}` at the head
of the input: captures `(var, key)` and the remainder. -/
def matchLoopHeaderAt (s : List Char) : Option (List Char × List Char × List Char) :=
  (matchChars [lbraceChar, '%'] s).bind fun r1 =>
  (matchChars "for".data (r1.dropWhile isWsChar)).bind fun r2 =>
  match r2 with
  | [] => none
  | c :: cs =>
    if isWsChar c then
      let r3 := cs.dropWhile isWsChar
      let var := r3.takeWhile isWordChar
      if var.isEmpty then none else
      match r3.drop var.length with
      | [] => none
      | c2 :: cs2 =>
        if isWsChar c2 then
          (matchChars "in".data (cs2.dropWhile isWsChar)).bind fun r4 =>
          match r4 with
          | [] => none
          | c3 :: cs3 =>
            if isWsChar c3 then
              let r5 := cs3.dropWhile isWsChar
              let key := r5.takeWhile isWordChar
              if key.isEmpty then none else
              (matchChars ['%', rbraceChar] ((r5.drop key.length).dropWhile isWsChar)).map
                fun r6 => (var, key, r6)
            else none
        else none
    else none

/-- One full match of the loop pattern (header, then minimal body up to the
first `endfor` marker) at the head of the input. -/
def matchLoopAt (s : List Char) : Option ((String × String × List Char) × List Char) :=
  (matchLoopHeaderAt s).bind fun m =>
  (findEndfor (m.2.2.length + 1) m.2.2).map fun p =>
    ((String.mk m.1, String.mk m.2.1, p.1), p.2)

/-- `re.findall` of the loop pattern with `re.DOTALL`. -/
def findLoopAux : Nat → List Char → List (String × String × List Char)
  | 0, _ => []
  | _ + 1, [] => []
  | fuel + 1, s@(_ :: cs) =>
    match matchLoopAt s with
    | some (blk, rest) => blk :: findLoopAux fuel rest
    | none => findLoopAux fuel cs

/-- All loop blocks `(var, key, body)` of a template. -/
def findLoop (s : List Char) : List (String × String × List Char) :=
  findLoopAux s.length s

/-- Match the rebuilt loop pattern
`\{%\s*for\s+VAR\s+in\s+KEY\s*%\}.*?\{%\s*endfor\s*%\}` (with `VAR` and
`KEY` interpolated literally) at the head of the input, returning the
remainder after the `endfor` marker. -/
def matchLoopLitAt (var key : List Char) (s : List Char) : Option (List Char) :=
  (matchChars [lbraceChar, '%'] s).bind fun r1 =>
  (matchChars "for".data (r1.dropWhile isWsChar)).bind fun r2 =>
  match r2 with
  | [] => none
  | c :: cs =>
    if isWsChar c then
      (matchChars var (cs.dropWhile isWsChar)).bind fun r3 =>
      match r3 with
      | [] => none
      | c2 :: cs2 =>
        if isWsChar c2 then
          (matchChars "in".data (cs2.dropWhile isWsChar)).bind fun r4 =>
          match r4 with
          | [] => none
          | c3 :: cs3 =>
            if isWsChar c3 then
              (matchChars key (cs3.dropWhile isWsChar)).bind fun r5 =>
              (matchChars ['%', rbraceChar] (r5.dropWhile isWsChar)).bind fun r6 =>
              (findEndfor (r6.length + 1) r6).map fun p => p.2
            else none
        else none
    else none

/-- Replace every match of the rebuilt loop pattern, left to right. -/
def subLoopAllAux (var key repl : List Char) : Nat → List Char → List Char
  | 0, s => s
  | _ + 1, [] => []
  | fuel + 1, s@(c :: cs) =>
    match matchLoopLitAt var key s with
    | some rest => repl ++ subLoopAllAux var key repl fuel rest
    | none => c :: subLoopAllAux var key repl fuel cs

/-- `re.sub` of the rebuilt loop pattern. -/
def reSubLoop (var key repl s : List Char) : Except String (List Char) :=
  (processRepl repl).map (fun r => subLoopAllAux var key r s.length s)

/-- Python `str.split('.')` worker: split at every dot, keeping empty
pieces (`cur` is the current piece, reversed). -/
def splitDotAux : List Char → List Char → List (List Char)
  | [], cur => [cur.reverse]
  | c :: cs, cur =>
    if c = '.' then cur.reverse :: splitDotAux cs [] else splitDotAux cs (c :: cur)

/-- Python `s.split('.')` (as used on placeholder captures). -/
def splitDot (s : List Char) : List (List Char) :=
  splitDotAux s []

/-- Resolution of a scalar placeholder `{{key}}`: the stringified first
element when the binding holds a non-empty list, else the stringified value
itself; `none` exactly when the key is absent. -/
def resolveScalar (b : Binding) (key : String) : Option String :=
  (blookup b key).map fun v =>
    match v with
    | .list (x :: _) => pyStr x
    | _ => pyStr v

/-- Resolution of a dotted placeholder `{{key.field}}`: requires the key to
be bound to a non-empty list whose first element contains `field` (Python
`in`, which can raise on non-iterable rows); `ok none` means the
placeholder is left untouched. -/
def resolveDotted (b : Binding) (key field : String) : Except String (Option String) :=
  match blookup b key with
  | some (.list (r0 :: _)) =>
    (pyInStr field r0).bind fun c =>
      if c then (pyIndexStr r0 field).map (fun v => some (pyStr v)) else .ok none
  | _ => .ok none

/-- Resolution of an indexed placeholder `{{key[idx].field}}`. -/
def resolveIndexed (b : Binding) (key : String) (idx : Nat) (field : String) :
    Except String (Option String) :=
  match blookup b key with
  | some (.list xs) =>
    if h : idx < xs.length then
      (pyInStr field (xs.get ⟨idx, h⟩)).bind fun c =>
        if c then (pyIndexStr (xs.get ⟨idx, h⟩) field).map (fun v => some (pyStr v))
        else .ok none
    else .ok none
  | _ => .ok none

/-- Resolution of a loop collection name: exact key first, then the fuzzy
fallback (the first binding key that contains or is contained in the
name). -/
def resolveCollection (b : Binding) (key : String) : Option PyVal :=
  match blookup b key with
  | some v => some v
  | none =>
    (b.find? (fun kv => containsSub key.data kv.1.data || containsSub kv.1.data key.data)).map
      (fun kv => kv.2)

/-- Is a value a non-empty list?  (`if collection and isinstance(collection,
list)`: only truthy lists are rendered.) -/
def isTruthyList : PyVal → Bool
  | .list (_ :: _) => true
  | _ => false

/-- One iteration of the array pass: resolve `{{key[idx].field}}` and, when
it resolves, substitute all occurrences of the rebuilt pattern (the index
is rebuilt from `int(...)`, i.e. in canonical decimal). -/
def arrayStep (b : Binding) (acc : List Char) (m : String × Nat × String) :
    Except String (List Char) :=
  match resolveIndexed b m.1 m.2.1 m.2.2 with
  | .error e => .error e
  | .ok none => .ok acc
  | .ok (some v) =>
    reSubPH (m.1.data ++ '[' :: (pyNatStr m.2.1).data ++ ']' :: '.' :: m.2.2.data)
      v.data acc

/-- One iteration of the simple pass: split the stripped capture on dots and
substitute scalar (`key`) or dotted (`key.field`, first part bracket-free)
placeholders that resolve. -/
def simpleStep (b : Binding) (acc : List Char) (ph : String) :
    Except String (List Char) :=
  match splitDot ph.data with
  | [key] =>
    match resolveScalar b (String.mk key) with
    | some v => reSubPH ph.data v.data acc
    | none => .ok acc
  | [key, field] =>
    if key.contains '[' then .ok acc
    else
      match resolveDotted b (String.mk key) (String.mk field) with
      | .error e => .error e
      | .ok (some v) => reSubPH ph.data v.data acc
      | .ok none => .ok acc
  | _ => .ok acc

/-- One `{{...}}` reference inside a loop body, resolved against the current
row and loop counter: `{{var.field}}` from the row, `{{loop.index}}` as a
newline followed by the 1-based position (the source substitutes
`f"\n{str(i + 1)}"`). -/
def loopBodyStep (var : String) (item : PyVal) (i : Nat) (acc : List Char)
    (ref : List Char) : Except String (List Char) :=
  match splitDot ref with
  | p0 :: p1 :: _ =>
    if String.mk p0 = var then
      (pyInStr (String.mk p1) item).bind fun c =>
        if c then
          (pyIndexStr item (String.mk p1)).bind fun v => reSubPH ref (pyStr v).data acc
        else .ok acc
    else if String.mk p0 = "loop" then
      if String.mk p1 = "index" then reSubPH ref ('\n' :: (pyNatStr (i + 1)).data) acc
      else .ok acc
    else .ok acc
  | _ => .ok acc

/-- Render a loop body for one row: fold the body's references over the
body text. -/
def renderLoopBody (var : String) (body : List Char) (item : PyVal) (i : Nat) :
    Except String (List Char) :=
  (findVarRefs body).foldlM (fun acc ref => loopBodyStep var item i acc ref) body

/-- Render and concatenate the body over all rows (`"".join(rendered_items)`),
`i` being the 0-based position of the first row. -/
def renderLoopItems (var : String) (body : List Char) :
    List PyVal → Nat → Except String (List Char)
  | [], _ => .ok []
  | x :: xs, i =>
    (renderLoopBody var body x i).bind fun r =>
    (renderLoopItems var body xs (i + 1)).map (fun rest => r ++ rest)

/-- One iteration of the loop pass: resolve the collection; when it is a
truthy list, render every row and substitute the whole block (all blocks
with this var/key), otherwise leave the text untouched. -/
def loopStep (b : Binding) (acc : List Char) (blk : String × String × List Char) :
    Except String (List Char) :=
  match resolveCollection b blk.2.1 with
  | some (.list (x :: xs)) =>
    (renderLoopItems blk.1 blk.2.2 (x :: xs) 0).bind fun joined =>
    reSubLoop blk.1.data blk.2.1.data joined acc
  | _ => .ok acc

/-- The array pass: array-pattern matches are found on the incoming text and
folded over it. -/
def arrayPass (b : Binding) (t : List Char) : Except String (List Char) :=
  (findArray t).foldlM (fun acc m => arrayStep b acc m) t

/-- The simple pass: simple-pattern matches are found on the incoming text
and folded over it. -/
def simplePass (b : Binding) (t : List Char) : Except String (List Char) :=
  (findSimple t).foldlM (fun acc ph => simpleStep b acc ph) t

/-- The loop pass: loop blocks are found on the incoming text and folded
over it. -/
def loopPass (b : Binding) (t : List Char) : Except String (List Char) :=
  (findLoop t).foldlM (fun acc blk => loopStep b acc blk) t

/-- `render_template` of `gs_chat/controllers/layers/template_renderer.py`:
the array pass (matches found on the input template), then the simple pass
(matches found on the intermediate result), then the loop pass; a Python
exception (from `re.sub` replacement processing or from `in`/indexing on
non-dict rows) is an `Except.error`. -/
def render_template (template : String) (b : Binding) : Except String String :=
  (arrayPass b template.data).bind fun r1 =>
  (simplePass b r1).bind fun r2 =>
  (loopPass b r2).map String.mk

/-- One match of the chat variant's single-brace pattern `\{([^{}]+)\}` at
the head of the input: the (unstripped) capture and the remainder. -/
def matchSingleAt (s : List Char) : Option (String × List Char) :=
  (matchChars [lbraceChar] s).bind fun r1 =>
  let w := r1.takeWhile (fun c => !(c == lbraceChar) && !(c == rbraceChar))
  if w.isEmpty then none else
  (matchChars [rbraceChar] (r1.drop w.length)).map fun r2 => (String.mk w, r2)

/-- `re.findall` of the single-brace pattern. -/
def findSingleAux : Nat → List Char → List String
  | 0, _ => []
  | _ + 1, [] => []
  | fuel + 1, s@(_ :: cs) =>
    match matchSingleAt s with
    | some (ph, rest) => ph :: findSingleAux fuel rest
    | none => findSingleAux fuel cs

/-- All single-brace captures of a template. -/
def findSingle (s : List Char) : List String :=
  findSingleAux s.length s

/-- Python `str.replace` (for a non-empty needle): replace all
non-overlapping occurrences left to right; the replacement is not
rescanned. -/
def pyStrReplaceAux (needle repl : List Char) : Nat → List Char → List Char
  | 0, s => s
  | _ + 1, [] => []
  | fuel + 1, s@(c :: cs) =>
    match matchChars needle s with
    | some rest => repl ++ pyStrReplaceAux needle repl fuel rest
    | none => c :: pyStrReplaceAux needle repl fuel cs

/-- Python `s.replace(needle, repl)`. -/
def pyStrReplace (needle repl s : List Char) : List Char :=
  pyStrReplaceAux needle repl s.length s

/-- One match of the chat variant's strict loop-variable pattern
`{{([\w.]+)}}` (no interior whitespace allowed) at the head of the input. -/
def matchVarRefStrictAt (s : List Char) : Option (List Char × List Char) :=
  (matchChars [lbraceChar, lbraceChar] s).bind fun r1 =>
  let ref := r1.takeWhile (fun c => isWordChar c || c == '.')
  if ref.isEmpty then none else
  (matchChars [rbraceChar, rbraceChar] (r1.drop ref.length)).map fun r2 => (ref, r2)

/-- `re.findall` of the strict loop-variable pattern over a loop body. -/
def findVarRefsStrictAux : Nat → List Char → List (List Char)
  | 0, _ => []
  | _ + 1, [] => []
  | fuel + 1, s@(_ :: cs) =>
    match matchVarRefStrictAt s with
    | some (ref, rest) => ref :: findVarRefsStrictAux fuel rest
    | none => findVarRefsStrictAux fuel cs

/-- All strict loop-variable references of a loop body. -/
def findVarRefsStrict (s : List Char) : List (List Char) :=
  findVarRefsStrictAux s.length s

/-- One iteration of the chat variant's placeholder pass: `str.replace`
substitution of `{key}` and `{key.field}` (no bracket guard on the first
part in this variant). -/
def chatSimpleStep (b : Binding) (acc : List Char) (ph : String) :
    Except String (List Char) :=
  match splitDot ph.data with
  | [key] =>
    match resolveScalar b (String.mk key) with
    | some v => .ok (pyStrReplace (lbraceChar :: ph.data ++ [rbraceChar]) v.data acc)
    | none => .ok acc
  | [key, field] =>
    match resolveDotted b (String.mk key) (String.mk field) with
    | .error e => .error e
    | .ok (some v) =>
      .ok (pyStrReplace (lbraceChar :: ph.data ++ [rbraceChar]) v.data acc)
    | .ok none => .ok acc
  | _ => .ok acc

/-- One `{{...}}` reference inside a chat-variant loop body: `{{var.field}}`
from the row, `{{loop.index}}` as exactly `str(i + 1)`. -/
def chatLoopBodyStep (var : String) (item : PyVal) (i : Nat) (acc : List Char)
    (ref : List Char) : Except String (List Char) :=
  match splitDot ref with
  | p0 :: p1 :: _ =>
    if String.mk p0 = var then
      (pyInStr (String.mk p1) item).bind fun c =>
        if c then
          (pyIndexStr item (String.mk p1)).map fun v =>
            pyStrReplace (lbraceChar :: lbraceChar :: ref ++ [rbraceChar, rbraceChar])
              (pyStr v).data acc
        else .ok acc
    else if String.mk p0 = "loop" then
      if String.mk p1 = "index" then
        .ok (pyStrReplace (lbraceChar :: lbraceChar :: ref ++ [rbraceChar, rbraceChar])
          (pyNatStr (i + 1)).data acc)
      else .ok acc
    else .ok acc
  | _ => .ok acc

/-- Render a chat-variant loop body for one row. -/
def chatLoopBody (var : String) (body : List Char) (item : PyVal) (i : Nat) :
    Except String (List Char) :=
  (findVarRefsStrict body).foldlM (fun acc ref => chatLoopBodyStep var item i acc ref) body

/-- Render and concatenate all rows of a chat-variant loop. -/
def chatLoopItems (var : String) (body : List Char) :
    List PyVal → Nat → Except String (List Char)
  | [], _ => .ok []
  | x :: xs, i =>
    (chatLoopBody var body x i).bind fun r =>
    (chatLoopItems var body xs (i + 1)).map (fun rest => r ++ rest)

/-- The literal text `{% for VAR in KEY %}BODY{% endfor %}` that the chat
variant rebuilds and replaces with `str.replace` (so blocks spelled with
different spacing are left untouched). -/
def chatLoopStr (var key body : List Char) : List Char :=
  [lbraceChar, '%'] ++ " for ".data ++ var ++ " in ".data ++ key ++ [' ', '%', rbraceChar]
  ++ body ++ [lbraceChar, '%'] ++ " endfor ".data ++ ['%', rbraceChar]

/-- One iteration of the chat variant's loop pass: any list bound to the
exact key (empty lists included, no fuzzy fallback) is rendered and the
rebuilt block text replaced. -/
def chatLoopStep (b : Binding) (acc : List Char) (blk : String × String × List Char) :
    Except String (List Char) :=
  match blookup b blk.2.1 with
  | some (.list xs) =>
    (chatLoopItems blk.1 blk.2.2 xs 0).map fun joined =>
      pyStrReplace (chatLoopStr blk.1.data blk.2.1.data blk.2.2) joined acc
  | _ => .ok acc

/-- The chat variant's placeholder pass. -/
def chatSimplePass (b : Binding) (t : List Char) : Except String (List Char) :=
  (findSingle t).foldlM (fun acc ph => chatSimpleStep b acc ph) t

/-- The chat variant's loop pass. -/
def chatLoopPass (b : Binding) (t : List Char) : Except String (List Char) :=
  (findLoop t).foldlM (fun acc blk => chatLoopStep b acc blk) t

/-- `render_template` of `gs_chat/controllers/chat.py`: single-brace
placeholders (found on the input template) replaced by `str.replace`, then
loop blocks found on the intermediate result. -/
def chat_render_template (template : String) (b : Binding) : Except String String :=
  (chatSimplePass b template.data).bind fun r1 =>
  (chatLoopPass b r1).map String.mk

/-- A replacement template without backslashes is processed to itself. -/
theorem processRepl_of_noBS (l : List Char) (h : ∀ c ∈ l, c ≠ backslashChar) :
    processRepl l = .ok l := by
  induction l with
  | nil => rfl
  | cons c cs ih =>
    have hc : c ≠ backslashChar := h c (by simp)
    have ih2 := ih (fun x hx => h x (by simp [hx]))
    unfold processRepl
    rw [if_neg hc, ih2]
    rfl

/-- Digit characters are not the backslash. -/
theorem digitChar_ne_backslash (d : Nat) : digitChar d ≠ backslashChar := by
  unfold digitChar
  split <;> decide

/-- No digit produced by `natDigitsAux` is a backslash. -/
theorem natDigitsAux_noBS : ∀ fuel n c, c ∈ natDigitsAux fuel n → c ≠ backslashChar := by
  intro fuel
  induction fuel with
  | zero => intro n c hc; simp [natDigitsAux] at hc
  | succ f ih =>
    intro n c hc
    unfold natDigitsAux at hc
    by_cases hn : n = 0
    · rw [if_pos hn] at hc; simp at hc
    · rw [if_neg hn] at hc
      rcases List.mem_append.mp hc with h | h
      · exact ih _ _ h
      · simp at h; rw [h]; exact digitChar_ne_backslash _

/-- The decimal form of a number contains no backslash. -/
theorem pyNatStr_noBS (n : Nat) : ∀ c ∈ (pyNatStr n).data, c ≠ backslashChar := by
  intro c hc
  unfold pyNatStr at hc
  by_cases hn : n = 0
  · rw [if_pos hn] at hc
    simp at hc
    rw [hc]; decide
  · rw [if_neg hn] at hc
    exact natDigitsAux_noBS _ _ _ hc

/-- The `loop.index` replacement text (a newline and the decimal position)
contains no backslash, so its `re.sub` template processing succeeds. -/
theorem loopIndexRepl_noBS (i : Nat) :
    ∀ c ∈ ('\n' :: (pyNatStr (i + 1)).data), c ≠ backslashChar := by
  intro c hc
  rcases List.mem_cons.mp hc with h | h
  · rw [h]; decide
  · exact pyNatStr_noBS _ _ h

/-- The loop template `{% for item in items %}- {{item.name}}{% endfor %}`. -/
def loopTmpl : String :=
  "\x7b% for item in items %\x7d- \x7b\x7bitem.name\x7d\x7d\x7b% endfor %\x7d"

/-- The body of `loopTmpl`. -/
def loopBodyLit : String := "- \x7b\x7bitem.name\x7d\x7d"

/-- The scalar template `{{missing}}`. -/
def scalarTmpl : String := "\x7b\x7bmissing\x7d\x7d"

/-- The dotted template `{{missing.name}}`. -/
def dottedTmpl : String := "\x7b\x7bmissing.name\x7d\x7d"

/-- The indexed template `{{missing[2].name}}`. -/
def indexedTmpl : String := "\x7b\x7bmissing[2].name\x7d\x7d"

/-- The loop body `{{loop.index}}`. -/
def pureIdxBody : String := "\x7b\x7bloop.index\x7d\x7d"

/-- The loop template `{% for item in items %}{{loop.index}};{% endfor %}`. -/
def idxTmpl : String :=
  "\x7b% for item in items %\x7d\x7b\x7bloop.index\x7d\x7d;\x7b% endfor %\x7d"

/-- The single-brace template `{customer}`. -/
def braceSingle : String := "\x7bcustomer\x7d"

/-- The double-brace template `{{customer}}`. -/
def braceDouble : String := "\x7b\x7bcustomer\x7d\x7d"

/-- A binding with two rows under `items`. -/
def bItems2 : Binding :=
  [("items", PyVal.list [PyVal.dict [("a", PyVal.str "x")],
                         PyVal.dict [("a", PyVal.str "y")]])]

/-- A binding with a scalar string under `customer`. -/
def bAcme : Binding := [("customer", PyVal.str "Acme")]

/-- The two-character string of a backslash followed by `1` (a group
reference when used as a `re.sub` replacement). -/
def bsGroupRef : String := String.mk [backslashChar, '1']

/-- A binding whose row value stringifies to a backslash escape. -/
def bBS : Binding :=
  [("k", PyVal.list [PyVal.dict [("f", PyVal.str bsGroupRef)]])]

/-- C4 counterexample: a loop whose key is absent from the binding is NOT
removed - `render_template` returns the template unchanged, literal
`{% for` delimiter included, contradicting the claim that the whole
construct is erased. -/
theorem c4_counterexample :
    render_template loopTmpl [] = .ok loopTmpl ∧
    containsSub ("\x7b% for").data loopTmpl.data = true :=
  ⟨rfl, rfl⟩

/-- A binding where the loop key `items` fuzzy-matches a non-list value
(`items_meta`) while the body placeholder `{{item.name}}` resolves through
the key `item`. -/
def bMeta : Binding :=
  [("items_meta", PyVal.str "x"), ("item", PyVal.list [PyVal.dict [("name", PyVal.str "X")]])]

/-- The render of `loopTmpl` against `bMeta`: the body was rewritten by the
dotted pass, but the loop delimiters remain. -/
def loopMetaOut : String := "\x7b% for item in items %\x7d- X\x7b% endfor %\x7d"

/-- C4 (amended): a loop block whose key does not resolve to a truthy bound
list is never removed and never rendered - the loop pass leaves the text it
receives untouched (first conjunct, for every binding, text and block), so
the literal loop delimiters remain in the output around the body; the body
itself may still have been rewritten by the earlier scalar/dotted passes
(second conjunct: against `bMeta` the body becomes `- X` but the literal
`{% for %}` delimiters survive); when no body placeholder resolves either,
the whole construct is returned character for character (third conjunct). -/
theorem c4_loop_not_removed :
    (∀ (b : Binding) (acc : List Char) (blk : String × String × List Char),
      (∀ v, resolveCollection b blk.2.1 = some v → isTruthyList v = false) →
      loopStep b acc blk = .ok acc) ∧
    (render_template loopTmpl bMeta = .ok loopMetaOut ∧
     containsSub ("\x7b% for").data loopMetaOut.data = true) ∧
    (∀ b : Binding, resolveDotted b "item" "name" = .ok none →
      (∀ v, resolveCollection b "items" = some v → isTruthyList v = false) →
      render_template loopTmpl b = .ok loopTmpl) := by
  refine ⟨?_, ⟨rfl, rfl⟩, ?_⟩
  · intro b acc blk hcol
    unfold loopStep
    rcases hc : resolveCollection b blk.2.1 with _ | v
    · rfl
    · rcases v with s | n | xs | fs
      · rfl
      · rfl
      · rcases xs with _ | ⟨x, xs⟩
        · rfl
        · exact absurd (hcol _ hc) (by simp [isTruthyList])
      · rfl
  · intro b h1 h2
    have p2 : simplePass b loopTmpl.data = .ok loopTmpl.data := by
      unfold simplePass
      rw [show findSimple loopTmpl.data = ["item.name"] from rfl, List.foldlM_cons]
      simp only [List.foldlM_nil]
      have hstep : simpleStep b loopTmpl.data "item.name" =
          (match resolveDotted b "item" "name" with
           | .error e => .error e
           | .ok (some v) => reSubPH "item.name".data v.data loopTmpl.data
           | .ok none => .ok loopTmpl.data) := rfl
      rw [hstep, h1]
      rfl
    have p3 : loopPass b loopTmpl.data = .ok loopTmpl.data := by
      unfold loopPass
      rw [show findLoop loopTmpl.data = [("item", "items", loopBodyLit.data)] from rfl,
          List.foldlM_cons]
      simp only [List.foldlM_nil]
      have hstep : loopStep b loopTmpl.data ("item", "items", loopBodyLit.data) =
          (match resolveCollection b "items" with
           | some (.list (x :: xs)) =>
             (renderLoopItems "item" loopBodyLit.data (x :: xs) 0).bind fun joined =>
             reSubLoop "item".data "items".data joined loopTmpl.data
           | _ => .ok loopTmpl.data) := rfl
      rw [hstep]
      rcases hc : resolveCollection b "items" with _ | v
      · rfl
      · rcases v with s | n | xs | fs
        · rfl
        · rfl
        · rcases xs with _ | ⟨x, xs⟩
          · rfl
          · exact absurd (h2 _ hc) (by simp [isTruthyList])
        · rfl
    unfold render_template
    rw [show arrayPass b loopTmpl.data = .ok loopTmpl.data from rfl]
    simp only [Except.bind]
    rw [p2]
    simp only [Except.bind]
    rw [p3]
    simp only [Except.map]

/-- Witness for C4 at a concrete non-empty binding with no matching key:
the loop pass leaves the text untouched and the full render returns the
template verbatim. -/
theorem c4_witness :
    loopStep [("orders", PyVal.str "x")] loopTmpl.data ("item", "items", loopBodyLit.data)
      = .ok loopTmpl.data ∧
    render_template loopTmpl [("orders", PyVal.str "x")] = .ok loopTmpl :=
  ⟨c4_loop_not_removed.1 [("orders", PyVal.str "x")] loopTmpl.data
     ("item", "items", loopBodyLit.data)
     (by
       intro v h
       rw [show resolveCollection [("orders", PyVal.str "x")] "items" = none from rfl] at h
       cases h),
   c4_loop_not_removed.2.2 [("orders", PyVal.str "x")] rfl
     (by
       intro v h
       rw [show resolveCollection [("orders", PyVal.str "x")] "items" = none from rfl] at h
       cases h)⟩

/-- C5: a placeholder that does not resolve is left in the output character
for character: a scalar `{{missing}}` whose key is absent, a dotted
`{{missing.name}}` whose resolution yields nothing, and an indexed
`{{missing[2].name}}` whose resolution yields nothing, are all returned
unchanged; in particular `render_template "{{missing.name}}" {}` equals the
input. -/
theorem c5_unresolved_left (b : Binding) :
    (resolveScalar b "missing" = none →
      render_template scalarTmpl b = .ok scalarTmpl) ∧
    (resolveDotted b "missing" "name" = .ok none →
      render_template dottedTmpl b = .ok dottedTmpl) ∧
    (resolveIndexed b "missing" 2 "name" = .ok none →
      render_template indexedTmpl b = .ok indexedTmpl) ∧
    render_template dottedTmpl [] = .ok dottedTmpl := by
  refine ⟨?_, ?_, ?_, rfl⟩
  · intro h
    have p2 : simplePass b scalarTmpl.data = .ok scalarTmpl.data := by
      unfold simplePass
      rw [show findSimple scalarTmpl.data = ["missing"] from rfl, List.foldlM_cons]
      simp only [List.foldlM_nil]
      have hstep : simpleStep b scalarTmpl.data "missing" =
          (match resolveScalar b "missing" with
           | some v => reSubPH "missing".data v.data scalarTmpl.data
           | none => .ok scalarTmpl.data) := rfl
      rw [hstep, h]
      rfl
    unfold render_template
    rw [show arrayPass b scalarTmpl.data = .ok scalarTmpl.data from rfl]
    simp only [Except.bind]
    rw [p2]
    simp only [Except.bind]
    rw [show loopPass b scalarTmpl.data = .ok scalarTmpl.data from rfl]
    simp only [Except.map]
  · intro h
    have p2 : simplePass b dottedTmpl.data = .ok dottedTmpl.data := by
      unfold simplePass
      rw [show findSimple dottedTmpl.data = ["missing.name"] from rfl, List.foldlM_cons]
      simp only [List.foldlM_nil]
      have hstep : simpleStep b dottedTmpl.data "missing.name" =
          (match resolveDotted b "missing" "name" with
           | .error e => .error e
           | .ok (some v) => reSubPH "missing.name".data v.data dottedTmpl.data
           | .ok none => .ok dottedTmpl.data) := rfl
      rw [hstep, h]
      rfl
    unfold render_template
    rw [show arrayPass b dottedTmpl.data = .ok dottedTmpl.data from rfl]
    simp only [Except.bind]
    rw [p2]
    simp only [Except.bind]
    rw [show loopPass b dottedTmpl.data = .ok dottedTmpl.data from rfl]
    simp only [Except.map]
  · intro h
    have p1 : arrayPass b indexedTmpl.data = .ok indexedTmpl.data := by
      unfold arrayPass
      rw [show findArray indexedTmpl.data = [("missing", 2, "name")] from rfl,
          List.foldlM_cons]
      simp only [List.foldlM_nil]
      have hstep : arrayStep b indexedTmpl.data ("missing", 2, "name") =
          (match resolveIndexed b "missing" 2 "name" with
           | .error e => .error e
           | .ok none => .ok indexedTmpl.data
           | .ok (some v) =>
             reSubPH ("missing".data ++ '[' :: (pyNatStr 2).data ++ ']' :: '.' :: "name".data)
               v.data indexedTmpl.data) := rfl
      rw [hstep, h]
      rfl
    have p2 : simplePass b indexedTmpl.data = .ok indexedTmpl.data := by
      unfold simplePass
      rw [show findSimple indexedTmpl.data = ["missing[2].name"] from rfl, List.foldlM_cons]
      simp only [List.foldlM_nil]
      rw [show simpleStep b indexedTmpl.data "missing[2].name" = .ok indexedTmpl.data from rfl]
      rfl
    unfold render_template
    rw [p1]
    simp only [Except.bind]
    rw [p2]
    simp only [Except.bind]
    rw [show loopPass b indexedTmpl.data = .ok indexedTmpl.data from rfl]
    simp only [Except.map]

/-- Witness for C5 at the empty binding. -/
theorem c5_witness :
    render_template scalarTmpl [] = .ok scalarTmpl ∧
    render_template dottedTmpl [] = .ok dottedTmpl ∧
    render_template indexedTmpl [] = .ok indexedTmpl :=
  ⟨(c5_unresolved_left []).1 rfl, (c5_unresolved_left []).2.1 rfl,
   (c5_unresolved_left []).2.2.1 rfl⟩

/-- C6: the renderer is NOT total - when a bound row value stringifies to a
backslash group reference, the `re.sub` replacement processing raises; the
render of `{{k[0].f}}` against `k = [{f: backslash-1}]` is an error, not a
string. -/
theorem c6_backslash_value_raises :
    render_template "\x7b\x7bk[0].f\x7d\x7d" bBS = .error "invalid group reference" := rfl

/-- C8 counterexample: the layers renderer substitutes `{{loop.index}}` with
a NEWLINE followed by the 1-based position, not the bare decimal: two rows
render to `"\n1;\n2;"`, which differs from the claimed `"1;2;"`. -/
theorem c8_counterexample :
    render_template idxTmpl bItems2 = .ok "\n1;\n2;" ∧
    ("\n1;\n2;" : String) ≠ "1;2;" :=
  ⟨rfl, by decide⟩

/-- C8 (amended): in the layers renderer every loop iteration substitutes
`{{loop.index}}` with a newline followed by the decimal form of `i + 1`; in
the chat variant it substitutes exactly the decimal form of `i + 1`; the
two concrete renders of the two-row loop illustrate both. -/
theorem c8_loop_index_forms :
    (∀ (i : Nat) (item : PyVal),
      renderLoopBody "item" pureIdxBody.data item i =
        .ok ('\n' :: (pyNatStr (i + 1)).data)) ∧
    (∀ (i : Nat) (item : PyVal),
      chatLoopBody "item" pureIdxBody.data item i = .ok (pyNatStr (i + 1)).data) ∧
    render_template idxTmpl bItems2 = .ok "\n1;\n2;" ∧
    chat_render_template idxTmpl bItems2 = .ok "1;2;" := by
  refine ⟨?_, ?_, rfl, rfl⟩
  · intro i item
    unfold renderLoopBody
    rw [show findVarRefs pureIdxBody.data = ["loop.index".data] from rfl, List.foldlM_cons]
    simp only [List.foldlM_nil]
    have hstep : loopBodyStep "item" item i pureIdxBody.data "loop.index".data =
        reSubPH "loop.index".data ('\n' :: (pyNatStr (i + 1)).data) pureIdxBody.data := rfl
    rw [hstep]
    unfold reSubPH
    rw [processRepl_of_noBS _ (loopIndexRepl_noBS i)]
    simp only [Except.map]
    rw [show subAllAux "loop.index".data ('\n' :: (pyNatStr (i + 1)).data)
          pureIdxBody.data.length pureIdxBody.data
        = ('\n' :: (pyNatStr (i + 1)).data) ++ [] from rfl]
    rw [List.append_nil]
    rfl
  · intro i item
    unfold chatLoopBody
    rw [show findVarRefsStrict pureIdxBody.data = ["loop.index".data] from rfl,
        List.foldlM_cons]
    simp only [List.foldlM_nil]
    have hstep : chatLoopBodyStep "item" item i pureIdxBody.data "loop.index".data =
        .ok (pyStrReplace
          (lbraceChar :: lbraceChar :: "loop.index".data ++ [rbraceChar, rbraceChar])
          (pyNatStr (i + 1)).data pureIdxBody.data) := rfl
    rw [hstep]
    rw [show pyStrReplace
          (lbraceChar :: lbraceChar :: "loop.index".data ++ [rbraceChar, rbraceChar])
          (pyNatStr (i + 1)).data pureIdxBody.data
        = (pyNatStr (i + 1)).data ++ [] from rfl]
    rw [List.append_nil]
    rfl

/-- C9 counterexample: the two spellings do not render alike - the layers
renderer leaves `{customer}` untouched while substituting `{{customer}}`. -/
theorem c9_counterexample :
    render_template braceSingle bAcme = .ok braceSingle ∧
    render_template braceDouble bAcme = .ok "Acme" ∧
    render_template braceSingle bAcme ≠ render_template braceDouble bAcme := by
  refine ⟨rfl, rfl, ?_⟩
  rw [show render_template braceSingle bAcme = .ok braceSingle from rfl,
      show render_template braceDouble bAcme = .ok "Acme" from rfl]
  intro h
  have h2 := Except.ok.inj h
  exact absurd h2 (by decide)

/-- C9 (amended): each implementation accepts exactly one spelling: the
layers renderer leaves single-brace placeholders verbatim for every binding
and substitutes the double-brace spelling; the chat variant substitutes the
single-brace spelling and turns the double-brace spelling into the value
wrapped in literal braces. -/
theorem c9_brace_spellings :
    (∀ b : Binding, render_template braceSingle b = .ok braceSingle) ∧
    (∀ b : Binding, resolveScalar b "customer" = some "Acme" →
      render_template braceDouble b = .ok "Acme") ∧
    (∀ b : Binding, resolveScalar b "customer" = some "Acme" →
      chat_render_template braceSingle b = .ok "Acme") ∧
    chat_render_template braceDouble bAcme =
      .ok (String.mk [lbraceChar] ++ "Acme" ++ String.mk [rbraceChar]) := by
  refine ⟨fun b => rfl, ?_, ?_, rfl⟩
  · intro b h
    have p2 : simplePass b braceDouble.data = .ok "Acme".data := by
      unfold simplePass
      rw [show findSimple braceDouble.data = ["customer"] from rfl, List.foldlM_cons]
      simp only [List.foldlM_nil]
      have hstep : simpleStep b braceDouble.data "customer" =
          (match resolveScalar b "customer" with
           | some v => reSubPH "customer".data v.data braceDouble.data
           | none => .ok braceDouble.data) := rfl
      rw [hstep, h]
      rfl
    unfold render_template
    rw [show arrayPass b braceDouble.data = .ok braceDouble.data from rfl]
    simp only [Except.bind]
    rw [p2]
    simp only [Except.bind]
    rw [show loopPass b "Acme".data = .ok "Acme".data from rfl]
    simp only [Except.map]
  · intro b h
    have p1 : chatSimplePass b braceSingle.data = .ok "Acme".data := by
      unfold chatSimplePass
      rw [show findSingle braceSingle.data = ["customer"] from rfl, List.foldlM_cons]
      simp only [List.foldlM_nil]
      have hstep : chatSimpleStep b braceSingle.data "customer" =
          (match resolveScalar b "customer" with
           | some v =>
             .ok (pyStrReplace (lbraceChar :: "customer".data ++ [rbraceChar]) v.data
               braceSingle.data)
           | none => .ok braceSingle.data) := rfl
      rw [hstep, h]
      rfl
    unfold chat_render_template
    rw [p1]
    simp only [Except.bind]
    rw [show chatLoopPass b "Acme".data = .ok "Acme".data from rfl]
    simp only [Except.map]

/-- Witness for C9 at the concrete binding. -/
theorem c9_witness :
    render_template braceDouble bAcme = .ok "Acme" ∧
    chat_render_template braceSingle bAcme = .ok "Acme" :=
  ⟨c9_brace_spellings.2.1 bAcme rfl, c9_brace_spellings.2.2.1 bAcme rfl⟩
